import Mathlib

/-!
Verification of the eBay OAuth token lifecycle manager.

The definitions below are a shallow embedding of `src/ebay_oauth/config.py`
and `src/ebay_oauth/auth.py`.  Wall-clock time is modelled as an integer
number of seconds passed in explicitly (`now`); the HTTP transport is
modelled as a function from the request the client builds to the response
it observes, and each operation reports the list of requests it issued so
that "zero network calls" and "exactly one POST" are provable statements.
-/

namespace EbayOAuth

/-- Embeds one entry of `ENVIRONMENTS` in `config.py`. -/
structure EnvConfig where
  consent_url : String
  token_url : String
  api_base : String
deriving DecidableEq, Repr

/-- Embeds `EBAY_SANDBOX` from `config.py`. -/
def EBAY_SANDBOX : EnvConfig :=
  { consent_url := "https://auth.sandbox.ebay.com/oauth2/authorize"
    token_url := "https://api.sandbox.ebay.com/identity/v1/oauth2/token"
    api_base := "https://api.sandbox.ebay.com" }

/-- Embeds `EBAY_PRODUCTION` from `config.py`. -/
def EBAY_PRODUCTION : EnvConfig :=
  { consent_url := "https://auth.ebay.com/oauth2/authorize"
    token_url := "https://api.ebay.com/identity/v1/oauth2/token"
    api_base := "https://api.ebay.com" }

/-- Embeds the `ENVIRONMENTS` dictionary lookup (`ENVIRONMENTS.get(name)`). -/
def ENVIRONMENTS (name : String) : Option EnvConfig :=
  if name = "sandbox" then some EBAY_SANDBOX
  else if name = "production" then some EBAY_PRODUCTION
  else none

/-- The fields of an `EbayOAuthClient` instance (`auth.py`): the four
constructor arguments, the two URLs resolved from the environment, and the
mutable cache pair `_access_token` / `_token_expiry`. -/
structure ClientState where
  client_id : String
  client_secret : String
  refresh_token : String
  environment : String
  token_url : String
  api_base : String
  access_token : Option String
  token_expiry : Int
deriving DecidableEq, Repr

/-- Embeds `EbayOAuthClient.__init__`: resolve the environment or fail
eagerly (`ValueError` in the source, the spec names it `ConfigError`). -/
def EbayOAuthClient.init (client_id client_secret refresh_token environment : String) :
    Except String ClientState :=
  match ENVIRONMENTS environment with
  | none =>
    Except.error ("Unknown environment: " ++ environment ++ ". Use sandbox or production.")
  | some env_config =>
    Except.ok
      { client_id := client_id
        client_secret := client_secret
        refresh_token := refresh_token
        environment := environment
        token_url := env_config.token_url
        api_base := env_config.api_base
        access_token := none
        token_expiry := 0 }

/-- Python truthiness of the `self._access_token` field: `None` and the
empty string are falsy, every other string is truthy. -/
def optStrTruthy : Option String → Bool
  | none => false
  | some s => s != ""

/-- The JSON body of a 2xx token-endpoint response, restricted to the
fields the client reads plus the `refresh_token` field some providers
include (which the client never reads). -/
structure TokenResponse where
  access_token : Option String
  expires_in : Option Int
  refresh_token : Option String
deriving DecidableEq, Repr

/-- What `client.post` followed by `raise_for_status` yields: either a
non-2xx status (which raises `httpx.HTTPStatusError`) or a parsed 2xx
JSON body. -/
inductive HttpResult where
  | httpError (status : Nat) (body : String)
  | ok (body : TokenResponse)
deriving DecidableEq, Repr

/-- The errors `_refresh_access_token` can raise: `httpx.HTTPStatusError`
on a non-2xx status (the spec calls it `TransportError`) and
`RuntimeError` carrying the parsed body when `access_token` is falsy (the
spec calls it `ProtocolError`). -/
inductive RefreshError where
  | transportError (status : Nat) (body : String)
  | protocolError (body : TokenResponse)
deriving DecidableEq, Repr

/-- The POST request `_refresh_access_token` issues: target URL, the two
headers, and the two form fields. -/
structure TokenRequest where
  url : String
  contentType : String
  authorization : String
  grant_type : String
  refresh_token : String
deriving DecidableEq, Repr

/-- The observable outcome of one client method call: the returned value
or raised error, the client state after the call, and the network
requests issued during it. -/
structure StepResult where
  result : Except RefreshError String
  state : ClientState
  calls : List TokenRequest
deriving Repr

/-- A transport maps the request the client issues to the response the
server gives; it stands for the network inside `httpx.Client.post`. -/
def Transport : Type := TokenRequest → HttpResult

end EbayOAuth

namespace EbayOAuth

/-- UTF-8 encoding of one scalar value, as `str.encode()` produces for one
character (surrogates cannot occur in a Lean `Char`, matching the values
`str.encode()` accepts). -/
def utf8EncodeChar (c : Char) : List Nat :=
  if c.toNat < 0x80 then [c.toNat]
  else if c.toNat < 0x800 then [0xC0 + c.toNat / 64, 0x80 + c.toNat % 64]
  else if c.toNat < 0x10000 then
    [0xE0 + c.toNat / 4096, 0x80 + c.toNat / 64 % 64, 0x80 + c.toNat % 64]
  else
    [0xF0 + c.toNat / 262144, 0x80 + c.toNat / 4096 % 64, 0x80 + c.toNat / 64 % 64,
      0x80 + c.toNat % 64]

/-- UTF-8 encoding of a character list; models `str.encode()`. -/
def utf8Encode (cs : List Char) : List Nat :=
  cs.flatMap utf8EncodeChar

/-- Whether a byte is a UTF-8 continuation byte (10xxxxxx). -/
abbrev isCont (b : Nat) : Prop := 0x80 ≤ b ∧ b < 0xC0

/-- Scalar value assembled from a 2-byte UTF-8 sequence. -/
abbrev utf8Val2 (b b1 : Nat) : Nat := (b - 0xC0) * 64 + (b1 - 0x80)

/-- Scalar value assembled from a 3-byte UTF-8 sequence. -/
abbrev utf8Val3 (b b1 b2 : Nat) : Nat := (b - 0xE0) * 4096 + (b1 - 0x80) * 64 + (b2 - 0x80)

/-- Scalar value assembled from a 4-byte UTF-8 sequence. -/
abbrev utf8Val4 (b b1 b2 b3 : Nat) : Nat :=
  (b - 0xF0) * 262144 + (b1 - 0x80) * 4096 + (b2 - 0x80) * 64 + (b3 - 0x80)

/-- One step of UTF-8 decoding with a fuel bound on the number of decoded
characters.  Each step consumes at least one input byte, so fuel equal to
the input length (as supplied by `utf8Decode`) never runs out. -/
def utf8DecodeAux : Nat → List Nat → Option (List Char)
  | _, [] => some []
  | 0, _ :: _ => none
  | fuel + 1, b :: rest =>
    if b < 0x80 then
      (utf8DecodeAux fuel rest).map (fun cs => Char.ofNat b :: cs)
    else if b < 0xC0 then none
    else if b < 0xE0 then
      match rest with
      | b1 :: rest2 =>
        if isCont b1 then
          if utf8Val2 b b1 < 0x80 then none
          else (utf8DecodeAux fuel rest2).map (fun cs => Char.ofNat (utf8Val2 b b1) :: cs)
        else none
      | [] => none
    else if b < 0xF0 then
      match rest with
      | b1 :: b2 :: rest2 =>
        if isCont b1 ∧ isCont b2 then
          if utf8Val3 b b1 b2 < 0x800 ∨
              (0xD800 ≤ utf8Val3 b b1 b2 ∧ utf8Val3 b b1 b2 < 0xE000) then none
          else (utf8DecodeAux fuel rest2).map (fun cs => Char.ofNat (utf8Val3 b b1 b2) :: cs)
        else none
      | _ => none
    else if b < 0xF5 then
      match rest with
      | b1 :: b2 :: b3 :: rest2 =>
        if isCont b1 ∧ isCont b2 ∧ isCont b3 then
          if utf8Val4 b b1 b2 b3 < 0x10000 ∨ 0x110000 ≤ utf8Val4 b b1 b2 b3 then none
          else (utf8DecodeAux fuel rest2).map (fun cs => Char.ofNat (utf8Val4 b b1 b2 b3) :: cs)
        else none
      | _ => none
    else none

/-- UTF-8 decoding of a byte list; models `bytes.decode()`.  Returns
`none` on malformed input (where Python raises `UnicodeDecodeError`),
including overlong encodings, surrogates and out-of-range values. -/
def utf8Decode (bs : List Nat) : Option (List Char) :=
  utf8DecodeAux bs.length bs

/-- The base64 alphabet of RFC 4648 used by `base64.b64encode`. -/
def b64Char (n : Nat) : Char :=
  if n < 26 then Char.ofNat (65 + n)
  else if n < 52 then Char.ofNat (97 + (n - 26))
  else if n < 62 then Char.ofNat (48 + (n - 52))
  else if n = 62 then '+'
  else '/'

/-- Inverse of the base64 alphabet; `none` for characters outside it
(including the padding character). -/
def b64Val (c : Char) : Option Nat :=
  if 65 ≤ c.toNat ∧ c.toNat ≤ 90 then some (c.toNat - 65)
  else if 97 ≤ c.toNat ∧ c.toNat ≤ 122 then some (c.toNat - 97 + 26)
  else if 48 ≤ c.toNat ∧ c.toNat ≤ 57 then some (c.toNat - 48 + 52)
  else if c = '+' then some 62
  else if c = '/' then some 63
  else none

/-- Base64 encoding of a byte list with padding; models
`base64.b64encode` (three input bytes become four output characters). -/
def b64encode : List Nat → List Char
  | [] => []
  | [b0] => [b64Char (b0 / 4), b64Char (b0 % 4 * 16), '=', '=']
  | [b0, b1] => [b64Char (b0 / 4), b64Char (b0 % 4 * 16 + b1 / 16), b64Char (b1 % 16 * 4), '=']
  | b0 :: b1 :: b2 :: rest =>
    b64Char (b0 / 4) :: b64Char (b0 % 4 * 16 + b1 / 16) ::
      b64Char (b1 % 16 * 4 + b2 / 64) :: b64Char (b2 % 64) :: b64encode rest

/-- Base64 decoding; models `base64.b64decode` on canonical padded input
(four characters per block, padding only in the final block), returning
`none` on input it cannot decode. -/
def b64decode : List Char → Option (List Nat)
  | [] => some []
  | c0 :: c1 :: c2 :: c3 :: rest =>
    match b64Val c0, b64Val c1 with
    | some v0, some v1 =>
      if c2 = '=' then
        if c3 = '=' ∧ rest = [] then some [v0 * 4 + v1 / 16] else none
      else
        match b64Val c2 with
        | some v2 =>
          if c3 = '=' then
            if rest = [] then some [v0 * 4 + v1 / 16, v1 % 16 * 16 + v2 / 4] else none
          else
            match b64Val c3 with
            | some v3 =>
              (b64decode rest).map
                (fun tail => (v0 * 4 + v1 / 16) :: (v1 % 16 * 16 + v2 / 4) ::
                  (v2 % 4 * 64 + v3) :: tail)
            | none => none
        | none => none
    | _, _ => none
  | _ => none

/-- Embeds `EbayOAuthClient._basic_auth_header`: the string
`"Basic " + base64(utf8(client_id + ":" + client_secret))`. -/
def basicAuthHeader (s : ClientState) : String :=
  let credentials := s.client_id ++ ":" ++ s.client_secret
  let encoded := String.mk (b64encode (utf8Encode credentials.data))
  "Basic " ++ encoded

/-- The POST request built inside `_refresh_access_token`. -/
def buildRequest (s : ClientState) : TokenRequest :=
  { url := s.token_url
    contentType := "application/x-www-form-urlencoded"
    authorization := basicAuthHeader s
    grant_type := "refresh_token"
    refresh_token := s.refresh_token }

/-- Embeds `EbayOAuthClient._refresh_access_token`.  A non-2xx status
raises before any field is assigned; a falsy (`None` or empty)
`access_token` raises `RuntimeError` carrying the parsed body; otherwise
both cache fields are assigned and the token returned.  `expires_in`
defaults to 7200 when absent and is trusted as-is. -/
def refreshAccessToken (now : Int) (transport : Transport) (s : ClientState) : StepResult :=
  match transport (buildRequest s) with
  | HttpResult.httpError status body =>
    { result := Except.error (RefreshError.transportError status body)
      state := s
      calls := [buildRequest s] }
  | HttpResult.ok data =>
    match data.access_token with
    | none =>
      { result := Except.error (RefreshError.protocolError data)
        state := s
        calls := [buildRequest s] }
    | some tok =>
      if tok = "" then
        { result := Except.error (RefreshError.protocolError data)
          state := s
          calls := [buildRequest s] }
      else
        { result := Except.ok tok
          state := { s with access_token := some tok
                            token_expiry := now + data.expires_in.getD 7200 }
          calls := [buildRequest s] }

/-- Embeds `EbayOAuthClient.get_access_token`: return the cached token if
it is truthy and `now < expiry - 60`, otherwise refresh. -/
def getAccessToken (now : Int) (transport : Transport) (s : ClientState) : StepResult :=
  if optStrTruthy s.access_token = true ∧ now < s.token_expiry - 60 then
    { result := Except.ok (s.access_token.getD "")
      state := s
      calls := [] }
  else
    refreshAccessToken now transport s

/-- Embeds `EbayOAuthClient.force_refresh`: clear both cache fields, then
refresh unconditionally. -/
def forceRefresh (now : Int) (transport : Transport) (s : ClientState) : StepResult :=
  refreshAccessToken now transport { s with access_token := none, token_expiry := 0 }

end EbayOAuth

namespace EbayOAuth

/-! Concrete states, responses and transports used in witnesses and
counterexamples. -/

/-- The state `EbayOAuthClient.init "id" "secret" "rtok" "sandbox"` yields. -/
def demoState : ClientState :=
  { client_id := "id"
    client_secret := "secret"
    refresh_token := "rtok"
    environment := "sandbox"
    token_url := EBAY_SANDBOX.token_url
    api_base := EBAY_SANDBOX.api_base
    access_token := none
    token_expiry := 0 }

/-- `demoState` with a cached token expiring exactly 60 seconds after time 0. -/
def demoBoundary : ClientState :=
  { demoState with access_token := some "tok", token_expiry := 60 }

/-- `demoState` with a cached token expiring 7200 seconds after time 0. -/
def demoFresh : ClientState :=
  { demoState with access_token := some "tok", token_expiry := 7200 }

/-- A successful token response. -/
def demoBody : TokenResponse :=
  { access_token := some "fresh", expires_in := some 7200, refresh_token := none }

/-- A transport whose server always answers 2xx with `demoBody`. -/
def demoTransport : Transport := fun _ => HttpResult.ok demoBody

/-- A transport whose server always answers 401. -/
def failTransport : Transport := fun _ => HttpResult.httpError 401 "Unauthorized"

/-- A 2xx response whose token expires in only 30 seconds. -/
def shortBody : TokenResponse :=
  { access_token := some "short", expires_in := some 30, refresh_token := none }

/-- A transport whose server always answers 2xx with `shortBody`. -/
def shortTransport : Transport := fun _ => HttpResult.ok shortBody

/-- A 2xx response whose `access_token` field is present but empty. -/
def emptyTokBody : TokenResponse :=
  { access_token := some "", expires_in := some 7200, refresh_token := none }

/-- A transport whose server always answers 2xx with `emptyTokBody`. -/
def emptyTokTransport : Transport := fun _ => HttpResult.ok emptyTokBody

/-- Replace the `refresh_token` field of every 2xx response a transport
produces; used to state that the client ignores that field. -/
def setRespRefreshTok (t : Transport) (x : Option String) : Transport :=
  fun r =>
    match t r with
    | HttpResult.ok d => HttpResult.ok { d with refresh_token := x }
    | e => e

/-! Helper lemmas about the refresh exchange, shared by the claims. -/

theorem refreshAccessToken_calls (now : Int) (t : Transport) (s : ClientState) :
    (refreshAccessToken now t s).calls = [buildRequest s] := by
  unfold refreshAccessToken
  split
  · rfl
  · split
    · rfl
    · split <;> rfl

theorem refreshAccessToken_error_state (now : Int) (t : Transport) (s : ClientState)
    (e : RefreshError) (herr : (refreshAccessToken now t s).result = Except.error e) :
    (refreshAccessToken now t s).state = s := by
  unfold refreshAccessToken at herr ⊢
  split at herr
  · rfl
  · split at herr
    · rfl
    · split at herr
      · rename_i htok
        rw [if_pos htok]
      · exact absurd herr (by simp)

theorem buildRequest_clear (s : ClientState) :
    buildRequest { s with access_token := none, token_expiry := 0 } = buildRequest s := rfl

end EbayOAuth

namespace EbayOAuth

/-- Claim C1 fails as stated at the boundary: `demoBoundary` has a cached
token present and `cached_expiry − now` equal to exactly 60 seconds, yet
`get_access_token` performs a network call and does not return the cached
value, because the code requires `now < expiry − 60` strictly. -/
theorem cache_hit_boundary_cex :
    demoBoundary.access_token = some "tok" ∧
    demoBoundary.token_expiry - 0 ≥ 60 ∧
    (getAccessToken 0 demoTransport demoBoundary).calls ≠ [] ∧
    (getAccessToken 0 demoTransport demoBoundary).result ≠ Except.ok "tok" := by
  refine ⟨rfl, by decide, ?_, ?_⟩
  · have h : (getAccessToken 0 demoTransport demoBoundary).calls =
        [buildRequest demoBoundary] := rfl
    rw [h]
    simp
  · have h : (getAccessToken 0 demoTransport demoBoundary).result =
        Except.ok "fresh" := rfl
    rw [h]
    intro hcontra
    exact absurd (Except.ok.inj hcontra) (by decide)

/-- Claim C1 (amended): if a cached access token is present (truthy) and
`cached_expiry − now` is strictly greater than 60 seconds, then
`get_access_token` returns the cached value, leaves the state unchanged,
and performs zero network calls. -/
theorem cache_hit_zero_network (now : Int) (t : Transport) (s : ClientState) (tok : String)
    (hp : s.access_token = some tok) (hne : tok ≠ "")
    (hfresh : s.token_expiry - now > 60) :
    getAccessToken now t s = { result := Except.ok tok, state := s, calls := [] } := by
  unfold getAccessToken
  rw [if_pos]
  · rw [hp]
    rfl
  · constructor
    · rw [hp]
      simp [optStrTruthy, hne]
    · omega

/-- Witness for the amended C1: `cache_hit_zero_network` applied at time 0
to the fresh cached state `demoFresh`. -/
theorem cache_hit_zero_network_witness :
    getAccessToken 0 demoTransport demoFresh =
      { result := Except.ok "tok", state := demoFresh, calls := [] } :=
  cache_hit_zero_network 0 demoTransport demoFresh "tok" rfl (by decide) (by decide)

/-- Claim C3: when the cached access token is unset (falsy) or
`now ≥ cached_expiry − 60`, `get_access_token` performs exactly one
refresh exchange — a single POST to the resolved token endpoint — and
returns that exchange's result. -/
theorem cache_miss_one_refresh (now : Int) (t : Transport) (s : ClientState)
    (hmiss : optStrTruthy s.access_token = false ∨ now ≥ s.token_expiry - 60) :
    getAccessToken now t s = refreshAccessToken now t s ∧
    (getAccessToken now t s).calls = [buildRequest s] ∧
    (buildRequest s).url = s.token_url := by
  have hcond : ¬(optStrTruthy s.access_token = true ∧ now < s.token_expiry - 60) := by
    rintro ⟨h1, h2⟩
    rcases hmiss with h | h
    · rw [h1] at h
      cases h
    · omega
  have hg : getAccessToken now t s = refreshAccessToken now t s := by
    unfold getAccessToken
    rw [if_neg hcond]
  refine ⟨hg, ?_, rfl⟩
  rw [hg]
  exact refreshAccessToken_calls now t s

/-- Witness for C3: an empty cache at time 0 triggers exactly one POST. -/
theorem cache_miss_one_refresh_witness :
    getAccessToken 0 demoTransport demoState = refreshAccessToken 0 demoTransport demoState ∧
    (getAccessToken 0 demoTransport demoState).calls = [buildRequest demoState] ∧
    (buildRequest demoState).url = demoState.token_url :=
  cache_miss_one_refresh 0 demoTransport demoState (Or.inl rfl)

/-- Claim C4: whenever the refresh exchange triggered by
`get_access_token` fails — a non-2xx status (`TransportError`) or a 2xx
body with a falsy `access_token` (`ProtocolError` carrying the body) —
the error is returned to the caller and the cache state is exactly as it
was before the call. -/
theorem get_error_atomic (now : Int) (t : Transport) (s : ClientState)
    (e : RefreshError) (herr : (getAccessToken now t s).result = Except.error e) :
    (getAccessToken now t s).state = s := by
  unfold getAccessToken at herr ⊢
  by_cases hc : optStrTruthy s.access_token = true ∧ now < s.token_expiry - 60
  · rw [if_pos hc] at herr
    exact absurd herr (by simp)
  · rw [if_neg hc] at herr ⊢
    exact refreshAccessToken_error_state now t s e herr

/-- Witness for C4: a 401 answer leaves the empty cache untouched. -/
theorem get_error_atomic_witness :
    (getAccessToken 0 failTransport demoState).state = demoState :=
  get_error_atomic 0 failTransport demoState
    (RefreshError.transportError 401 "Unauthorized") rfl

end EbayOAuth

namespace EbayOAuth

theorem refreshAccessToken_success (now : Int) (t : Transport) (s : ClientState)
    (body : TokenResponse) (tok : String)
    (hresp : t (buildRequest s) = HttpResult.ok body)
    (htok : body.access_token = some tok) (hne : tok ≠ "") :
    refreshAccessToken now t s =
      { result := Except.ok tok
        state := { s with access_token := some tok
                          token_expiry := now + body.expires_in.getD 7200 }
        calls := [buildRequest s] } := by
  unfold refreshAccessToken
  rw [hresp]
  simp only [htok]
  rw [if_neg hne]

/-- Claim C2 fails as stated: the code trusts the response's expires_in
as-is, so a refresh whose 2xx response carries expires_in = 30 returns a
token whose current-time distance to cached_expiry is 30 < 60 seconds.
The state is reachable: it is exactly what construction yields. -/
theorem safety_margin_cex :
    EbayOAuthClient.init "id" "secret" "rtok" "sandbox" = Except.ok demoState ∧
    (forceRefresh 0 shortTransport demoState).result = Except.ok "short" ∧
    (forceRefresh 0 shortTransport demoState).state.token_expiry - 0 < 60 := by
  refine ⟨rfl, rfl, ?_⟩
  have h : (forceRefresh 0 shortTransport demoState).state.token_expiry = 0 + 30 := rfl
  rw [h]
  decide

/-- Claim C2 (amended): a token served from the cache always satisfies
cached_expiry − now > 60; a token stored by a successful refresh exchange
(via get_access_token or force_refresh) has cached_expiry = now +
expires_in, with expires_in read from the response (default 7200) and
trusted as-is — so the 60-second margin after a refresh holds exactly
when expires_in ≥ 60. -/
theorem safety_margin (now : Int) (t : Transport) (s : ClientState) :
    ((getAccessToken now t s).calls = [] → s.token_expiry - now > 60) ∧
    (∀ body tok, t (buildRequest s) = HttpResult.ok body →
      body.access_token = some tok → tok ≠ "" → (getAccessToken now t s).calls ≠ [] →
      (getAccessToken now t s).state.token_expiry = now + body.expires_in.getD 7200) ∧
    (∀ body tok, t (buildRequest s) = HttpResult.ok body →
      body.access_token = some tok → tok ≠ "" →
      (forceRefresh now t s).state.token_expiry = now + body.expires_in.getD 7200) := by
  refine ⟨?_, ?_, ?_⟩
  · intro hcalls
    by_cases hc : optStrTruthy s.access_token = true ∧ now < s.token_expiry - 60
    · omega
    · exfalso
      have h : (getAccessToken now t s).calls = [buildRequest s] := by
        unfold getAccessToken
        rw [if_neg hc]
        exact refreshAccessToken_calls now t s
      rw [h] at hcalls
      cases hcalls
  · intro body tok hresp htok hne hcalls
    by_cases hc : optStrTruthy s.access_token = true ∧ now < s.token_expiry - 60
    · exfalso
      apply hcalls
      unfold getAccessToken
      rw [if_pos hc]
    · have hg : getAccessToken now t s = refreshAccessToken now t s := by
        unfold getAccessToken
        rw [if_neg hc]
      rw [hg, refreshAccessToken_success now t s body tok hresp htok hne]
  · intro body tok hresp htok hne
    unfold forceRefresh
    rw [refreshAccessToken_success now t { s with access_token := none, token_expiry := 0 }
      body tok hresp htok hne]

/-- Witness for the amended C2: a warm cache satisfies the margin, and a
refresh with expires_in = 30 sets cached_expiry to now + 30. -/
theorem safety_margin_witness :
    demoFresh.token_expiry - 0 > 60 ∧
    (forceRefresh 0 shortTransport demoState).state.token_expiry =
      0 + shortBody.expires_in.getD 7200 := by
  constructor
  · exact (safety_margin 0 demoTransport demoFresh).1 rfl
  · exact (safety_margin 0 shortTransport demoState).2.2 shortBody "short" rfl rfl (by decide)

/-- Claim C5: for every cache state, force_refresh performs exactly one
refresh exchange (one POST to the token endpoint); on success it stores
the returned token, sets the expiry from the response, and returns the
new token. -/
theorem force_refresh_one_exchange (now : Int) (t : Transport) (s : ClientState) :
    (forceRefresh now t s).calls = [buildRequest s] ∧
    (∀ body tok, t (buildRequest s) = HttpResult.ok body →
      body.access_token = some tok → tok ≠ "" →
      (forceRefresh now t s).result = Except.ok tok ∧
      (forceRefresh now t s).state.access_token = some tok ∧
      (forceRefresh now t s).state.token_expiry = now + body.expires_in.getD 7200) := by
  constructor
  · exact refreshAccessToken_calls now t { s with access_token := none, token_expiry := 0 }
  · intro body tok hresp htok hne
    unfold forceRefresh
    rw [refreshAccessToken_success now t { s with access_token := none, token_expiry := 0 }
      body tok hresp htok hne]
    exact ⟨rfl, rfl, rfl⟩

/-- Witness for C5: force_refresh on a warm cache issues one POST and
returns the freshly exchanged token. -/
theorem force_refresh_one_exchange_witness :
    (forceRefresh 0 demoTransport demoFresh).calls = [buildRequest demoFresh] ∧
    (forceRefresh 0 demoTransport demoFresh).result = Except.ok "fresh" := by
  have h := force_refresh_one_exchange 0 demoTransport demoFresh
  exact ⟨h.1, (h.2 demoBody "fresh" rfl rfl (by decide)).1⟩

/-- Claim C6 fails as stated for a 2xx body that contains the
access_token field with the empty string as value: the code treats a
falsy token as missing, raises `ProtocolError` and does not cache it. -/
theorem refresh_post_cex :
    emptyTokBody.access_token = some "" ∧
    (refreshAccessToken 0 emptyTokTransport demoState).result =
      Except.error (RefreshError.protocolError emptyTokBody) ∧
    (refreshAccessToken 0 emptyTokTransport demoState).state = demoState :=
  ⟨rfl, rfl, rfl⟩

/-- Claim C6 (amended): for every 2xx response whose JSON body contains a
non-empty access_token, the exchange stores that value, sets
cached_expiry to now + expires_in (with expires_in from the response,
defaulting to 7200 when absent), and returns the new access token. -/
theorem refresh_success_post (now : Int) (t : Transport) (s : ClientState)
    (body : TokenResponse) (tok : String)
    (hresp : t (buildRequest s) = HttpResult.ok body)
    (htok : body.access_token = some tok) (hne : tok ≠ "") :
    (refreshAccessToken now t s).result = Except.ok tok ∧
    (refreshAccessToken now t s).state.access_token = some tok ∧
    (refreshAccessToken now t s).state.token_expiry = now + body.expires_in.getD 7200 := by
  rw [refreshAccessToken_success now t s body tok hresp htok hne]
  exact ⟨rfl, rfl, rfl⟩

/-- Witness for the amended C6: a 2xx body carrying access_token "fresh"
and expires_in 7200 is cached and returned. -/
theorem refresh_success_post_witness :
    (refreshAccessToken 0 demoTransport demoState).result = Except.ok "fresh" ∧
    (refreshAccessToken 0 demoTransport demoState).state.access_token = some "fresh" ∧
    (refreshAccessToken 0 demoTransport demoState).state.token_expiry =
      0 + demoBody.expires_in.getD 7200 :=
  refresh_success_post 0 demoTransport demoState demoBody "fresh" rfl rfl (by decide)

end EbayOAuth

namespace EbayOAuth

/-- Claim C8: construction resolves "sandbox" and "production" to their
fixed token endpoints, and fails eagerly — already inside the
constructor — for every other environment string. -/
theorem environment_resolution :
    (∀ cid cs rt, ∃ st : ClientState,
      EbayOAuthClient.init cid cs rt "sandbox" = Except.ok st ∧
      st.token_url = "https://api.sandbox.ebay.com/identity/v1/oauth2/token") ∧
    (∀ cid cs rt, ∃ st : ClientState,
      EbayOAuthClient.init cid cs rt "production" = Except.ok st ∧
      st.token_url = "https://api.ebay.com/identity/v1/oauth2/token") ∧
    (∀ cid cs rt env, env ≠ "sandbox" → env ≠ "production" →
      ∃ msg, EbayOAuthClient.init cid cs rt env = Except.error msg) := by
  refine ⟨fun cid cs rt => ⟨_, rfl, rfl⟩, fun cid cs rt => ⟨_, rfl, rfl⟩, ?_⟩
  intro cid cs rt env h1 h2
  refine ⟨"Unknown environment: " ++ env ++ ". Use sandbox or production.", ?_⟩
  unfold EbayOAuthClient.init ENVIRONMENTS
  rw [if_neg h1, if_neg h2]

/-- Witness for C8: the environment string "invalid" is rejected at
construction time. -/
theorem environment_resolution_witness :
    ∃ msg, EbayOAuthClient.init "id" "secret" "rtok" "invalid" = Except.error msg :=
  environment_resolution.2.2 "id" "secret" "rtok" "invalid" (by decide) (by decide)

/-- Claim C9: when the exchange performed by force_refresh fails, the
error propagates and the manager is left with access_token = None and
token_expiry = 0 — the previously cached token is discarded before the
exchange and not restored. -/
theorem force_refresh_failure_clears (now : Int) (t : Transport) (s : ClientState)
    (e : RefreshError) (herr : (forceRefresh now t s).result = Except.error e) :
    (forceRefresh now t s).state = { s with access_token := none, token_expiry := 0 } :=
  refreshAccessToken_error_state now t { s with access_token := none, token_expiry := 0 } e herr

/-- Witness for C9: a 401 during force_refresh leaves the cleared cache
even though the prior cached token was still fresh. -/
theorem force_refresh_failure_clears_witness :
    (forceRefresh 0 failTransport demoFresh).state =
      { demoFresh with access_token := none, token_expiry := 0 } :=
  force_refresh_failure_clears 0 failTransport demoFresh
    (RefreshError.transportError 401 "Unauthorized") rfl

end EbayOAuth

namespace EbayOAuth

theorem refreshAccessToken_state_shape (now : Int) (t : Transport) (s : ClientState) :
    (refreshAccessToken now t s).state = s ∨
    ∃ tok exp, (refreshAccessToken now t s).state =
      { s with access_token := some tok, token_expiry := exp } := by
  unfold refreshAccessToken
  split
  · exact Or.inl rfl
  · split
    · exact Or.inl rfl
    · split
      · exact Or.inl rfl
      · exact Or.inr ⟨_, _, rfl⟩

theorem refreshAccessToken_frame (now : Int) (t : Transport) (s : ClientState) :
    (refreshAccessToken now t s).state.client_id = s.client_id ∧
    (refreshAccessToken now t s).state.client_secret = s.client_secret ∧
    (refreshAccessToken now t s).state.refresh_token = s.refresh_token ∧
    (refreshAccessToken now t s).state.environment = s.environment ∧
    (refreshAccessToken now t s).state.token_url = s.token_url ∧
    (refreshAccessToken now t s).state.api_base = s.api_base := by
  rcases refreshAccessToken_state_shape now t s with h | ⟨tok, exp, h⟩ <;>
    rw [h] <;> exact ⟨rfl, rfl, rfl, rfl, rfl, rfl⟩

theorem refreshAccessToken_rt_ignored (now : Int) (t : Transport) (s : ClientState)
    (x : Option String) :
    (refreshAccessToken now (setRespRefreshTok t x) s).state =
      (refreshAccessToken now t s).state := by
  unfold refreshAccessToken setRespRefreshTok
  cases h : t (buildRequest s) with
  | httpError status body => simp only [h]
  | ok d =>
    simp only [h]
    cases hd : d.access_token with
    | none => simp only [hd]
    | some tok =>
      simp only [hd]
      by_cases he : tok = ""
      · simp only [if_pos he]
      · simp only [if_neg he]

end EbayOAuth

namespace EbayOAuth

/-- Claim C10: get_access_token and force_refresh modify only the cache
pair — client_id, client_secret, refresh_token, environment, token_url
and api_base are unchanged by either operation — and a refresh_token
field present in the token-endpoint response is ignored: changing it
changes neither operation's resulting state, so the stored refresh token
is kept. -/
theorem frame_property (now : Int) (t : Transport) (s : ClientState) :
    ((getAccessToken now t s).state.client_id = s.client_id ∧
     (getAccessToken now t s).state.client_secret = s.client_secret ∧
     (getAccessToken now t s).state.refresh_token = s.refresh_token ∧
     (getAccessToken now t s).state.environment = s.environment ∧
     (getAccessToken now t s).state.token_url = s.token_url ∧
     (getAccessToken now t s).state.api_base = s.api_base) ∧
    ((forceRefresh now t s).state.client_id = s.client_id ∧
     (forceRefresh now t s).state.client_secret = s.client_secret ∧
     (forceRefresh now t s).state.refresh_token = s.refresh_token ∧
     (forceRefresh now t s).state.environment = s.environment ∧
     (forceRefresh now t s).state.token_url = s.token_url ∧
     (forceRefresh now t s).state.api_base = s.api_base) ∧
    (∀ x, (getAccessToken now (setRespRefreshTok t x) s).state =
        (getAccessToken now t s).state ∧
      (forceRefresh now (setRespRefreshTok t x) s).state =
        (forceRefresh now t s).state) := by
  refine ⟨?_, ?_, ?_⟩
  · by_cases hc : optStrTruthy s.access_token = true ∧ now < s.token_expiry - 60
    · unfold getAccessToken
      rw [if_pos hc]
      exact ⟨rfl, rfl, rfl, rfl, rfl, rfl⟩
    · unfold getAccessToken
      rw [if_neg hc]
      exact refreshAccessToken_frame now t s
  · exact refreshAccessToken_frame now t { s with access_token := none, token_expiry := 0 }
  · intro x
    constructor
    · by_cases hc : optStrTruthy s.access_token = true ∧ now < s.token_expiry - 60
      · unfold getAccessToken
        rw [if_pos hc, if_pos hc]
      · unfold getAccessToken
        rw [if_neg hc, if_neg hc]
        exact refreshAccessToken_rt_ignored now t s x
    · exact refreshAccessToken_rt_ignored now t
        { s with access_token := none, token_expiry := 0 } x

end EbayOAuth

namespace EbayOAuth

/-! Round-trip lemmas for the base64 and UTF-8 codecs, leading to the
basic-auth header property. -/

theorem b64Val_b64Char : ∀ n : Nat, n < 64 → b64Val (b64Char n) = some n := by
  decide

theorem b64Char_ne_pad : ∀ n : Nat, n < 64 → b64Char n ≠ '=' := by
  decide

theorem b64_roundtrip : ∀ bs : List Nat, (∀ b ∈ bs, b < 256) →
    b64decode (b64encode bs) = some bs
  | [] => fun _ => rfl
  | [b0] => fun h => by
    have hb0 : b0 < 256 := h b0 (by simp)
    have h1 : b64Val (b64Char (b0 / 4)) = some (b0 / 4) :=
      b64Val_b64Char (b0 / 4) (by omega)
    have h2 : b64Val (b64Char (b0 % 4 * 16)) = some (b0 % 4 * 16) :=
      b64Val_b64Char (b0 % 4 * 16) (by omega)
    have henc : b64encode [b0] = [b64Char (b0 / 4), b64Char (b0 % 4 * 16), '=', '='] := rfl
    rw [henc]
    simp only [b64decode, h1, h2]
    simp
    omega
  | [b0, b1] => fun h => by
    have hb0 : b0 < 256 := h b0 (by simp)
    have hb1 : b1 < 256 := h b1 (by simp)
    have h1 : b64Val (b64Char (b0 / 4)) = some (b0 / 4) :=
      b64Val_b64Char (b0 / 4) (by omega)
    have h2 : b64Val (b64Char (b0 % 4 * 16 + b1 / 16)) = some (b0 % 4 * 16 + b1 / 16) :=
      b64Val_b64Char (b0 % 4 * 16 + b1 / 16) (by omega)
    have h3 : b64Val (b64Char (b1 % 16 * 4)) = some (b1 % 16 * 4) :=
      b64Val_b64Char (b1 % 16 * 4) (by omega)
    have hne : b64Char (b1 % 16 * 4) ≠ '=' := b64Char_ne_pad (b1 % 16 * 4) (by omega)
    have henc : b64encode [b0, b1] =
        [b64Char (b0 / 4), b64Char (b0 % 4 * 16 + b1 / 16), b64Char (b1 % 16 * 4), '='] := rfl
    rw [henc]
    simp only [b64decode, h1, h2]
    rw [if_neg hne]
    simp only [h3]
    simp
    omega
  | b0 :: b1 :: b2 :: rest => fun h => by
    have hb0 : b0 < 256 := h b0 (by simp)
    have hb1 : b1 < 256 := h b1 (by simp)
    have hb2 : b2 < 256 := h b2 (by simp)
    have ih : b64decode (b64encode rest) = some rest :=
      b64_roundtrip rest (fun b hb => h b (by simp [hb]))
    have h1 : b64Val (b64Char (b0 / 4)) = some (b0 / 4) :=
      b64Val_b64Char (b0 / 4) (by omega)
    have h2 : b64Val (b64Char (b0 % 4 * 16 + b1 / 16)) = some (b0 % 4 * 16 + b1 / 16) :=
      b64Val_b64Char (b0 % 4 * 16 + b1 / 16) (by omega)
    have h3 : b64Val (b64Char (b1 % 16 * 4 + b2 / 64)) = some (b1 % 16 * 4 + b2 / 64) :=
      b64Val_b64Char (b1 % 16 * 4 + b2 / 64) (by omega)
    have h4 : b64Val (b64Char (b2 % 64)) = some (b2 % 64) :=
      b64Val_b64Char (b2 % 64) (by omega)
    have hne2 : b64Char (b1 % 16 * 4 + b2 / 64) ≠ '=' :=
      b64Char_ne_pad (b1 % 16 * 4 + b2 / 64) (by omega)
    have hne3 : b64Char (b2 % 64) ≠ '=' := b64Char_ne_pad (b2 % 64) (by omega)
    have henc : b64encode (b0 :: b1 :: b2 :: rest) =
        b64Char (b0 / 4) :: b64Char (b0 % 4 * 16 + b1 / 16) ::
          b64Char (b1 % 16 * 4 + b2 / 64) :: b64Char (b2 % 64) ::
          b64encode rest := rfl
    rw [henc]
    simp only [b64decode, h1, h2]
    rw [if_neg hne2]
    simp only [h3]
    rw [if_neg hne3]
    simp only [h4, ih, Option.map_some']
    simp
    omega

end EbayOAuth

namespace EbayOAuth

theorem utf8EncodeChar_lt_256 (c : Char) : ∀ b ∈ utf8EncodeChar c, b < 256 := by
  have hv : c.toNat < 0xD800 ∨ (0xDFFF < c.toNat ∧ c.toNat < 0x110000) := c.valid
  have hlt : c.toNat < 0x110000 := by
    rcases hv with h | ⟨h1, h2⟩
    · omega
    · exact h2
  intro b hb
  unfold utf8EncodeChar at hb
  by_cases h1 : c.toNat < 0x80
  · rw [if_pos h1] at hb
    simp at hb
    omega
  · rw [if_neg h1] at hb
    by_cases h2 : c.toNat < 0x800
    · rw [if_pos h2] at hb
      simp at hb
      rcases hb with rfl | rfl <;> omega
    · rw [if_neg h2] at hb
      by_cases h3 : c.toNat < 0x10000
      · rw [if_pos h3] at hb
        simp at hb
        rcases hb with rfl | rfl | rfl <;> omega
      · rw [if_neg h3] at hb
        simp at hb
        rcases hb with rfl | rfl | rfl | rfl <;> omega

theorem utf8Encode_lt_256 (cs : List Char) : ∀ b ∈ utf8Encode cs, b < 256 := by
  induction cs with
  | nil =>
    intro b hb
    simp [utf8Encode] at hb
  | cons c cs ih =>
    intro b hb
    rw [show utf8Encode (c :: cs) = utf8EncodeChar c ++ utf8Encode cs from rfl] at hb
    rcases List.mem_append.mp hb with h | h
    · exact utf8EncodeChar_lt_256 c b h
    · exact ih b h

theorem utf8EncodeChar_length_pos (c : Char) : 1 ≤ (utf8EncodeChar c).length := by
  unfold utf8EncodeChar
  split
  · simp
  · split
    · simp
    · split <;> simp

theorem length_le_utf8Encode_length (cs : List Char) :
    cs.length ≤ (utf8Encode cs).length := by
  induction cs with
  | nil => simp [utf8Encode]
  | cons c cs ih =>
    rw [show utf8Encode (c :: cs) = utf8EncodeChar c ++ utf8Encode cs from rfl,
      List.length_append, List.length_cons]
    have h1 := utf8EncodeChar_length_pos c
    omega

theorem utf8DecodeAux_encodeChar (c : Char) (f : Nat) (bs : List Nat) :
    utf8DecodeAux (f + 1) (utf8EncodeChar c ++ bs) =
      (utf8DecodeAux f bs).map (fun cs => c :: cs) := by
  have hv : c.toNat < 0xD800 ∨ (0xDFFF < c.toNat ∧ c.toNat < 0x110000) := c.valid
  have hofnat : Char.ofNat c.toNat = c := Char.ofNat_toNat c
  have hlt : c.toNat < 0x110000 := by
    rcases hv with h | ⟨hh1, hh2⟩
    · omega
    · exact hh2
  by_cases h1 : c.toNat < 0x80
  · rw [show utf8EncodeChar c = [c.toNat] from by rw [utf8EncodeChar, if_pos h1]]
    simp only [List.cons_append, List.nil_append, utf8DecodeAux]
    rw [if_pos h1]
    simp [hofnat]
  · by_cases h2 : c.toNat < 0x800
    · rw [show utf8EncodeChar c = [0xC0 + c.toNat / 64, 0x80 + c.toNat % 64] from by
        rw [utf8EncodeChar, if_neg h1, if_pos h2]]
      simp only [List.cons_append, List.nil_append, utf8DecodeAux]
      rw [if_neg (by omega), if_neg (by omega), if_pos (by omega)]
      simp only [List.append_eq, List.cons_append, List.nil_append]
      rw [if_pos (⟨by omega, by omega⟩ : isCont (0x80 + c.toNat % 64))]
      have e : utf8Val2 (0xC0 + c.toNat / 64) (0x80 + c.toNat % 64) = c.toNat := by
        unfold utf8Val2
        omega
      simp only [e]
      rw [if_neg (by omega)]
      simp only [hofnat]
    · by_cases h3 : c.toNat < 0x10000
      · rw [show utf8EncodeChar c =
            [0xE0 + c.toNat / 4096, 0x80 + c.toNat / 64 % 64, 0x80 + c.toNat % 64] from by
          rw [utf8EncodeChar, if_neg h1, if_neg h2, if_pos h3]]
        simp only [List.cons_append, List.nil_append, utf8DecodeAux]
        rw [if_neg (by omega), if_neg (by omega), if_neg (by omega), if_pos (by omega)]
        simp only [List.append_eq, List.cons_append, List.nil_append]
        rw [if_pos (⟨⟨by omega, by omega⟩, ⟨by omega, by omega⟩⟩ :
          isCont (0x80 + c.toNat / 64 % 64) ∧ isCont (0x80 + c.toNat % 64))]
        have e : utf8Val3 (0xE0 + c.toNat / 4096) (0x80 + c.toNat / 64 % 64)
            (0x80 + c.toNat % 64) = c.toNat := by
          unfold utf8Val3
          omega
        simp only [e]
        rw [if_neg (by
          rcases hv with hcase | ⟨hcase, _⟩ <;> omega)]
        simp only [hofnat]
      · rw [show utf8EncodeChar c =
            [0xF0 + c.toNat / 262144, 0x80 + c.toNat / 4096 % 64, 0x80 + c.toNat / 64 % 64,
              0x80 + c.toNat % 64] from by
          rw [utf8EncodeChar, if_neg h1, if_neg h2, if_neg h3]]
        simp only [List.cons_append, List.nil_append, utf8DecodeAux]
        rw [if_neg (by omega), if_neg (by omega), if_neg (by omega), if_neg (by omega),
          if_pos (by omega)]
        simp only [List.append_eq, List.cons_append, List.nil_append]
        rw [if_pos (⟨⟨by omega, by omega⟩, ⟨by omega, by omega⟩, ⟨by omega, by omega⟩⟩ :
          isCont (0x80 + c.toNat / 4096 % 64) ∧ isCont (0x80 + c.toNat / 64 % 64) ∧
            isCont (0x80 + c.toNat % 64))]
        have e : utf8Val4 (0xF0 + c.toNat / 262144) (0x80 + c.toNat / 4096 % 64)
            (0x80 + c.toNat / 64 % 64) (0x80 + c.toNat % 64) = c.toNat := by
          unfold utf8Val4
          omega
        simp only [e]
        rw [if_neg (by omega)]
        simp only [hofnat]

theorem utf8DecodeAux_roundtrip (cs : List Char) :
    ∀ fuel, cs.length ≤ fuel → utf8DecodeAux fuel (utf8Encode cs) = some cs := by
  induction cs with
  | nil =>
    intro fuel h
    show utf8DecodeAux fuel [] = some []
    cases fuel <;> rfl
  | cons c cs ih =>
    intro fuel h
    cases fuel with
    | zero => simp at h
    | succ f =>
      rw [show utf8Encode (c :: cs) = utf8EncodeChar c ++ utf8Encode cs from rfl,
        utf8DecodeAux_encodeChar c f (utf8Encode cs),
        ih f (by simp at h; omega)]
      rfl

theorem utf8_roundtrip (cs : List Char) : utf8Decode (utf8Encode cs) = some cs := by
  unfold utf8Decode
  exact utf8DecodeAux_roundtrip cs (utf8Encode cs).length (length_le_utf8Encode_length cs)

end EbayOAuth

namespace EbayOAuth

/-- Claim C7: for every client_id and client_secret, the generated
Authorization header value is "Basic " followed by a base64 payload, and
decoding that payload (base64 to bytes, then UTF-8 to a string) yields
exactly the string client_id followed by a colon followed by
client_secret. -/
theorem basic_auth_roundtrip (s : ClientState) :
    ∃ payload : String,
      basicAuthHeader s = "Basic " ++ payload ∧
      (b64decode payload.data).bind (fun bs => (utf8Decode bs).map String.mk) =
        some (s.client_id ++ ":" ++ s.client_secret) := by
  refine ⟨String.mk (b64encode (utf8Encode (s.client_id ++ ":" ++ s.client_secret).data)),
    rfl, ?_⟩
  have hdata :
      (String.mk (b64encode (utf8Encode (s.client_id ++ ":" ++ s.client_secret).data))).data =
        b64encode (utf8Encode (s.client_id ++ ":" ++ s.client_secret).data) := rfl
  rw [hdata,
    b64_roundtrip (utf8Encode (s.client_id ++ ":" ++ s.client_secret).data)
      (utf8Encode_lt_256 (s.client_id ++ ":" ++ s.client_secret).data)]
  show (utf8Decode (utf8Encode (s.client_id ++ ":" ++ s.client_secret).data)).map String.mk =
    some (s.client_id ++ ":" ++ s.client_secret)
  rw [utf8_roundtrip]
  rfl

end EbayOAuth
